import Mathlib

/-!
Verification development for the expense-tracking chat bot (`bot.py`).

The bot's `handle_text` handler and its store adapters (`ensure_user`,
`set_state`, `get_state`, `clear_state`, `parse_amount`, and the inline
Supabase queries) are embedded shallowly:

* The record store (four tables: `exp_users`, `exp_bot_state`,
  `exp_expenses`, `exp_monthly_totals`) is an explicit `Store` value.
* Every `supa_exec` call site may fail; failures are driven by an explicit
  fault schedule (a `List Bool`, one entry consumed per store call, `true`
  meaning the call returns an error). An empty schedule means no faults.
* Monetary values are rationals (Python floats hold short decimals
  exactly at the scale used here); timestamps are an abstract
  `(year, month, rest)` triple whose lexicographic order models
  chronological comparison of ISO-8601 strings.
* Outbound messages are an inductive type carrying the data values the
  real code interpolates into its message strings.
-/

/-- Timestamp model: `rest` abstracts everything finer than the month
(day, time of day). Lexicographic order on `(year, month, rest)` models
the chronological order that `bot.py` gets from comparing ISO-8601
strings (`.gte("created_at", first_iso)`, `.order("created_at")`). -/
structure Time where
  year : ℕ
  month : ℕ
  rest : ℕ
deriving DecidableEq, Repr

/-- Chronological order on timestamps (lexicographic). -/
def Time.le (a b : Time) : Prop :=
  a.year < b.year ∨ (a.year = b.year ∧
    (a.month < b.month ∨ (a.month = b.month ∧ a.rest ≤ b.rest)))

instance (a b : Time) : Decidable (Time.le a b) := by
  unfold Time.le; infer_instance

/-- Row of `exp_users`. -/
structure UserRow where
  id : ℕ
  tgUserId : ℕ
  tgChatId : ℕ
deriving DecidableEq, Repr

/-- Row of `exp_bot_state` (the PendingAction record): `pending` is the
`pending_action` column (nullable), `tempAmount` the `temp_amount`
column (nullable), `updatedAt` the `updated_at` column. -/
structure StateRow where
  userId : ℕ
  pending : Option String
  tempAmount : Option ℚ
  updatedAt : Time
deriving DecidableEq, Repr

/-- Row of `exp_expenses`. `amount` is NOT NULL in the store; the insert
call site passes a nullable staged amount and a null is rejected by the
store as an error. -/
structure ExpenseRow where
  userId : ℕ
  amount : ℚ
  title : String
  createdAt : Time
deriving DecidableEq, Repr

/-- Row of `exp_monthly_totals`; `monthStart` is the `(year, month)` key
(the first day of the month), `total` is nullable. -/
structure MonthlyRow where
  userId : ℕ
  monthStart : ℕ × ℕ
  total : Option ℚ
deriving DecidableEq, Repr

/-- The record store: the four tables the bot touches. -/
structure Store where
  users : List UserRow
  botState : List StateRow
  expenses : List ExpenseRow
  monthly : List MonthlyRow
deriving DecidableEq, Repr

/-- Static configuration: the `ALLOWED_TG_IDS` allow-list. -/
structure Config where
  allowed : List ℕ
deriving DecidableEq, Repr

/-- An inbound text event (`message.from_user.id`, `message.chat.id`,
`message.text`). -/
structure Msg where
  tgUserId : ℕ
  chatId : ℕ
  text : String
deriving DecidableEq, Repr

/-- Outbound messages, carrying the data values the code interpolates
into its reply strings (string rendering itself is not modelled). -/
inductive OutMsg where
  /-- `"This bot is private. Access denied."` -/
  | denied
  /-- `"Access error (not whitelisted in DB)."` -/
  | accessError
  /-- `"Send the amount (e.g., 23.50)"` -/
  | promptAmount
  /-- `"This month total: …"` plus the listed items (empty list renders
  as `"(no items yet)"`). -/
  | reportThisMonth (total : ℚ) (items : List ExpenseRow)
  /-- `"Your expenses for YYYY-MM: …"` with the `(year, month)` key. -/
  | reportLastMonth (monthStart : ℕ × ℕ) (total : ℚ)
  /-- `"Invalid amount. Try again, e.g. 12.30"` -/
  | invalidAmount
  /-- `"Amount: … ✅ Now send the title"` -/
  | amountOk (a : ℚ)
  /-- `"Title can't be empty. Send a short title."` -/
  | titleEmpty
  /-- `"Save failed. Check logs."` -/
  | saveFailed
  /-- `Saved ✅ amount — title` -/
  | saved (a : ℚ) (title : String)
  /-- `"Use the buttons below to add or view expenses."` -/
  | help
deriving DecidableEq, Repr

/-- Consume the next fault-schedule entry; an exhausted schedule means
no fault. -/
def nextFault (sched : List Bool) : Bool × List Bool :=
  match sched with
  | [] => (false, [])
  | b :: t => (b, t)

/-- Model of `is_allowed`: membership of the Telegram user id in the allow-list
(`str(tg_user_id) in ALLOWED_TG_IDS`). -/
def is_allowed (cfg : Config) (tg : ℕ) : Bool :=
  cfg.allowed.contains tg

/-- Python `str.strip()` on the message text. -/
def pyStrip (s : String) : String :=
  String.mk (((s.toList.dropWhile Char.isWhitespace).reverse.dropWhile
    Char.isWhitespace).reverse)

/-- Split a character list on whitespace runs, dropping empty pieces:
Python `text.split()`. The accumulator holds the current word reversed. -/
def pyWords : List Char → List Char → List (List Char)
  | [], acc => if acc = [] then [] else [acc.reverse]
  | c :: cs, acc =>
      if c.isWhitespace then
        if acc = [] then pyWords cs [] else acc.reverse :: pyWords cs []
      else pyWords cs (c :: acc)

/-- Join words with single spaces: Python `" ".join(words)`. -/
def joinSpace : List (List Char) → List Char
  | [] => []
  | [w] => w
  | w :: ws => w ++ ' ' :: joinSpace ws

/-- Title normalization, `" ".join(text.split()).strip()`: collapse
whitespace runs to single spaces and trim ends (the final `.strip()` is
a no-op after the join and is therefore not repeated here). -/
def normalizeTitle (text : String) : String :=
  String.mk (joinSpace (pyWords text.toList []))

/-- All characters are ASCII digits. -/
def isDigits (l : List Char) : Bool :=
  l.all (fun c => c.isDigit)

/-- Numeric value of a digit list. -/
def digitsVal (l : List Char) : ℕ :=
  l.foldl (fun a c => a * 10 + (c.toNat - 48)) 0

/-- A parsed decimal literal: sign, integer-part value, fractional-part
value and fractional-digit count. `-12.345` is `⟨true, 12, 345, 3⟩`. -/
structure DecLit where
  neg : Bool
  ip : ℕ
  fp : ℕ
  fpLen : ℕ
deriving DecidableEq, Repr

/-- Numeric value of a parsed decimal literal. -/
def DecLit.toRat (d : DecLit) : ℚ :=
  (if d.neg then -1 else 1) * ((d.ip : ℚ) + (d.fp : ℚ) / 10 ^ d.fpLen)

/-- Model of Python `float(text)` restricted to plain decimal literals:
optional sign, integer digits, optional fractional digits, at least one
digit in all (both `".5"` and `"5."` are accepted, as in Python).
Exponents, `inf`/`nan` and digit-group underscores are outside the
model; any other non-numeric text is rejected, as `float` is. -/
def parseFloatChars (cs : List Char) : Option DecLit :=
  let (neg, rest) :=
    match cs with
    | '-' :: r => (true, r)
    | '+' :: r => (false, r)
    | r => (false, r)
  match rest.splitOn '.' with
  | [ip] =>
      if ip ≠ [] ∧ isDigits ip then some ⟨neg, digitsVal ip, 0, 0⟩ else none
  | [ip, fp] =>
      if (ip ≠ [] ∨ fp ≠ []) ∧ isDigits ip ∧ isDigits fp then
        some ⟨neg, digitsVal ip, digitsVal fp, fp.length⟩
      else none
  | _ => none

/-- Round-half-even to an integer, the rule of Python `round`. (CPython
applies it to the binary double, whose value at a decimal tie such as
`12.345` sits slightly off the exact tie; no claim here depends on a
tie input, so the exact-rational half-even rule is used.) -/
def rhe (x : ℚ) : ℤ :=
  let f := Int.floor x
  let r := x - f
  if r < 1 / 2 then f
  else if 1 / 2 < r then f + 1
  else if Even f then f else f + 1

/-- Model of `round(n, 2)`: round to 2 fractional digits. -/
def round2 (n : ℚ) : ℚ :=
  (rhe (100 * n) : ℚ) / 100

/-- Character-wise `text.replace(",", ".")`. -/
def commaToDot (c : Char) : Char :=
  if c = ',' then '.' else c

/-- Model of `parse_amount`: normalize `,` to `.`, parse as a float, accept only
strictly positive values, and round the accepted value to 2 digits. -/
def parse_amount (text : String) : Option ℚ :=
  match parseFloatChars (text.toList.map commaToDot) with
  | none => none
  | some d => if 0 < d.toRat then some (round2 d.toRat) else none

/-- Fresh `exp_users.id` assigned by the store on insert. -/
def freshId (users : List UserRow) : ℕ :=
  (users.map (fun u => u.id)).foldr max 0 + 1

/-- Update the `tg_chat_id` of the user row with the given id. -/
def updateChat (users : List UserRow) (uid chat : ℕ) : List UserRow :=
  users.map (fun u => if u.id = uid then { u with tgChatId := chat } else u)

/-- Model of `ensure_user`: allow-list check, then select the `exp_users` row by
Telegram id; if found, update its chat id (result discarded, so an
error there is ignored) and return the id; otherwise insert a new row.
A select or insert error yields `none` (the caller replies with the
access-error message). -/
def ensure_user (cfg : Config) (s : Store) (sched : List Bool) (tg chat : ℕ) :
    Option ℕ × Store × List Bool :=
  if is_allowed cfg tg = false then (none, s, sched)
  else
    let (f1, sched1) := nextFault sched
    if f1 then (none, s, sched1)
    else
      match s.users.find? (fun u => u.tgUserId == tg) with
      | some u =>
          let (f2, sched2) := nextFault sched1
          let s2 := if f2 then s else { s with users := updateChat s.users u.id chat }
          (some u.id, s2, sched2)
      | none =>
          let (f3, sched3) := nextFault sched1
          if f3 then (none, s, sched3)
          else
            let uid := freshId s.users
            (some uid, { s with users := s.users ++ [⟨uid, tg, chat⟩] }, sched3)

/-- Upsert by `user_id` (`on_conflict="user_id"`): update the matching
row in place if one exists, else append. -/
def upsertState (l : List StateRow) (row : StateRow) : List StateRow :=
  if l.any (fun r => r.userId == row.userId) then
    l.map (fun r => if r.userId == row.userId then row else r)
  else l ++ [row]

/-- Model of `set_state`: upsert the pending-action row. The call's result is
discarded by the code, so an error leaves the store unchanged and is
otherwise ignored. -/
def set_state (s : Store) (sched : List Bool) (uid : ℕ) (action : Option String)
    (temp : Option ℚ) (now : Time) : Store × List Bool :=
  let (f, sched1) := nextFault sched
  if f then (s, sched1)
  else ({ s with botState := upsertState s.botState ⟨uid, action, temp, now⟩ }, sched1)

/-- Model of `get_state`: select the pending-action row; an error yields `none`
(indistinguishable, to the caller, from no row). -/
def get_state (s : Store) (sched : List Bool) (uid : ℕ) :
    Option StateRow × List Bool :=
  let (f, sched1) := nextFault sched
  if f then (none, sched1)
  else (s.botState.find? (fun r => r.userId == uid), sched1)

/-- Model of `clear_state`: delete the pending-action row; the result is
discarded, so an error leaves the row in place. -/
def clear_state (s : Store) (sched : List Bool) (uid : ℕ) : Store × List Bool :=
  let (f, sched1) := nextFault sched
  if f then (s, sched1)
  else ({ s with botState := s.botState.filter (fun r => !(r.userId == uid)) }, sched1)

/-- First instant of the current UTC calendar month,
`datetime(now.year, now.month, 1)`. -/
def monthFirst (now : Time) : Time :=
  ⟨now.year, now.month, 0⟩

/-- Month-to-date window membership for a user's expense row. -/
def inWindow (uid : ℕ) (now : Time) (r : ExpenseRow) : Bool :=
  r.userId == uid && decide (Time.le (monthFirst now) r.createdAt)

/-- Most-recent-first order on expense rows (`.order("created_at",
desc=True)`). -/
def recentFirst (a b : ExpenseRow) : Prop :=
  Time.le b.createdAt a.createdAt

instance : DecidableRel recentFirst := fun a b => by
  unfold recentFirst; infer_instance

instance : IsTotal ExpenseRow recentFirst :=
  ⟨fun a b => by unfold recentFirst Time.le; omega⟩

instance : IsTrans ExpenseRow recentFirst :=
  ⟨fun a b c => by unfold recentFirst Time.le; omega⟩

/-- The `text == "Add expense"` branch: overwrite the pending action to
`await_amount` with no staged amount, then prompt for the amount. The
`set_state` result is discarded. -/
def addExpenseCmd (now : Time) (s : Store) (sched : List Bool) (uid : ℕ) :
    Store × List OutMsg :=
  let (s1, _) := set_state s sched uid (some "await_amount") none now
  (s1, [OutMsg.promptAmount])

/-- The `text == "See expenses"` branch: list the 10 most recent
month-to-date rows (query errors render as no items), fetch all
month-to-date amounts and sum them in the handler (query errors render
as an empty sum), send the report. No state row is touched. -/
def seeExpensesCmd (now : Time) (s : Store) (sched : List Bool) (uid : ℕ) :
    Store × List OutMsg :=
  let (f1, sched1) := nextFault sched
  let items :=
    if f1 then []
    else (List.insertionSort recentFirst (s.expenses.filter (inWindow uid now))).take 10
  let (f2, _) := nextFault sched1
  let total : ℚ :=
    if f2 then 0
    else ((s.expenses.filter (inWindow uid now)).map (fun r => r.amount)).sum
  (s, [OutMsg.reportThisMonth total items])

/-- The `text == "See last month"` branch: key of the previous calendar
month (`m = now.month - 1 or 12`, year decremented in January), read
the precomputed monthly total, defaulting to zero when the row is
absent, its total column null, or the query errors. -/
def seeLastMonthCmd (now : Time) (s : Store) (sched : List Bool) (uid : ℕ) :
    Store × List OutMsg :=
  let m := if now.month - 1 = 0 then 12 else now.month - 1
  let y := if now.month = 1 then now.year - 1 else now.year
  let (f, _) := nextFault sched
  let total : ℚ :=
    if f then 0
    else
      match s.monthly.find? (fun r => r.userId == uid && r.monthStart == (y, m)) with
      | some r => r.total.getD 0
      | none => 0
  (s, [OutMsg.reportLastMonth (y, m) total])

/-- The amount → title state machine at the bottom of `handle_text`,
after the loaded state row `st?` is available. Python truthiness of
`parse_amount`'s result makes both `None` and `0.0` invalid. A null
staged amount is rejected by the store's NOT NULL constraint on
`exp_expenses.amount`, surfacing as an insert error. -/
def stateStep (now : Time) (s : Store) (sched : List Bool) (uid : ℕ)
    (text : String) (st? : Option StateRow) : Store × List OutMsg :=
  match st? with
  | none => (s, [OutMsg.help])
  | some st =>
    if st.pending = some "await_amount" then
      match parse_amount text with
      | none => (s, [OutMsg.invalidAmount])
      | some a =>
        if a = 0 then (s, [OutMsg.invalidAmount])
        else
          let (s1, _) := set_state s sched uid (some "await_title") (some a) now
          (s1, [OutMsg.amountOk a])
    else if st.pending = some "await_title" then
      let title := normalizeTitle text
      if title = "" then (s, [OutMsg.titleEmpty])
      else
        match st.tempAmount with
        | none => (s, [OutMsg.saveFailed])
        | some a =>
          let (f, sched1) := nextFault sched
          if f then (s, [OutMsg.saveFailed])
          else
            let s1 := { s with expenses := s.expenses ++ [⟨uid, a, title, now⟩] }
            let (s2, _) := clear_state s1 sched1 uid
            (s2, [OutMsg.saved a title])
    else (s, [OutMsg.help])

/-- Dispatch after authorization: the fixed commands are checked before
the state machine, so they take precedence over any in-progress state. -/
def dispatch (now : Time) (s : Store) (sched : List Bool) (uid : ℕ)
    (text : String) : Store × List OutMsg :=
  if text = "Add expense" then addExpenseCmd now s sched uid
  else if text = "See expenses" then seeExpensesCmd now s sched uid
  else if text = "See last month" then seeLastMonthCmd now s sched uid
  else
    let (st?, sched1) := get_state s sched uid
    stateStep now s sched1 uid text st?

/-- Model of `handle_text`: strip the text, check the allow-list before any
store access, resolve the user, then dispatch. Exactly one outbound
message is produced on every path. -/
def handle_text (cfg : Config) (now : Time) (s : Store) (sched : List Bool)
    (m : Msg) : Store × List OutMsg :=
  let text := pyStrip m.text
  if is_allowed cfg m.tgUserId = false then (s, [OutMsg.denied])
  else
    match ensure_user cfg s sched m.tgUserId m.chatId with
    | (none, s1, _) => (s1, [OutMsg.accessError])
    | (some uid, s1, sched1) => dispatch now s1 sched1 uid text

/-! ### General lemmas about the amount parser -/

theorem rhe_nonneg {x : ℚ} (hx : 0 ≤ x) : 0 ≤ rhe x := by
  have hf : (0 : ℤ) ≤ ⌊x⌋ := Int.floor_nonneg.mpr hx
  unfold rhe
  dsimp only
  split_ifs <;> omega

theorem parse_amount_nonneg {t : String} {v : ℚ}
    (h : parse_amount t = some v) : 0 ≤ v := by
  unfold parse_amount at h
  cases hp : parseFloatChars (t.toList.map commaToDot) with
  | none => rw [hp] at h; cases h
  | some d =>
      rw [hp] at h
      dsimp only at h
      by_cases hd : 0 < d.toRat
      · rw [if_pos hd] at h
        obtain rfl : round2 d.toRat = v := Option.some.inj h
        have hk : (0 : ℤ) ≤ rhe (100 * d.toRat) := rhe_nonneg (by positivity)
        unfold round2
        have : (0 : ℚ) ≤ (rhe (100 * d.toRat) : ℚ) := by exact_mod_cast hk
        positivity
      · rw [if_neg hd] at h; cases h

theorem parse_amount_hundredths {t : String} {v : ℚ}
    (h : parse_amount t = some v) : ∃ k : ℤ, v = (k : ℚ) / 100 := by
  unfold parse_amount at h
  cases hp : parseFloatChars (t.toList.map commaToDot) with
  | none => rw [hp] at h; cases h
  | some d =>
      rw [hp] at h
      dsimp only at h
      by_cases hd : 0 < d.toRat
      · rw [if_pos hd] at h
        obtain rfl : round2 d.toRat = v := Option.some.inj h
        exact ⟨rhe (100 * d.toRat), rfl⟩
      · rw [if_neg hd] at h; cases h

theorem commaToDot_idem : commaToDot ∘ commaToDot = commaToDot := by
  funext c
  unfold commaToDot
  by_cases h : c = ','
  · simp [h]
  · simp [h]

/-- Concrete evaluation: `parse_amount "12.345"` (which is `12.34` under
the half-even tie rule). -/
theorem parse_amount_12_345 : parse_amount "12.345" = some (617 / 50) := by
  have h : parseFloatChars ("12.345".toList.map commaToDot) =
      some ⟨false, 12, 345, 3⟩ := by decide
  rw [parse_amount, h]
  norm_num [DecLit.toRat, round2, rhe, Int.even_iff]

/-- C2 (counterexample): the claim that every value `parse_amount`
returns is strictly greater than zero fails at `"0.004"`: the input is
strictly positive, but rounding to 2 digits yields `0.0`, which
`parse_amount` returns without rejecting it. -/
theorem parse_amount_positive_counterexample :
    parse_amount "0.004" = some 0 ∧ ¬ (0 < (0 : ℚ)) := by
  constructor
  · have h : parseFloatChars ("0.004".toList.map commaToDot) =
        some ⟨false, 0, 4, 3⟩ := by decide
    rw [parse_amount, h]
    norm_num [DecLit.toRat, round2, rhe]
  · exact lt_irrefl 0

/-- C2 (amended): `parse_amount` treats `,` and `.` interchangeably,
returns `none` for non-numeric text, for zero and for negative values,
and every accepted value is rounded to exactly 2 fractional digits; in
particular the five listed examples hold. Every value it returns is
nonnegative — but not necessarily strictly positive, since rounding a
small positive input can produce `0`. -/
theorem parse_amount_spec :
    parse_amount "23.50" = some (47 / 2) ∧
    parse_amount "23,50" = some (47 / 2) ∧
    parse_amount "0" = none ∧
    parse_amount "-5" = none ∧
    parse_amount "abc" = none ∧
    (∀ t : String, parse_amount (String.mk (t.toList.map commaToDot)) = parse_amount t) ∧
    ∀ t v, parse_amount t = some v → (∃ k : ℤ, v = (k : ℚ) / 100) ∧ 0 ≤ v := by
  refine ⟨?_, ?_, ?_, ?_, ?_, ?_, ?_⟩
  · have h : parseFloatChars ("23.50".toList.map commaToDot) =
        some ⟨false, 23, 50, 2⟩ := by decide
    rw [parse_amount, h]
    norm_num [DecLit.toRat, round2, rhe]
  · have h : parseFloatChars ("23,50".toList.map commaToDot) =
        some ⟨false, 23, 50, 2⟩ := by decide
    rw [parse_amount, h]
    norm_num [DecLit.toRat, round2, rhe]
  · have h : parseFloatChars ("0".toList.map commaToDot) =
        some ⟨false, 0, 0, 0⟩ := by decide
    rw [parse_amount, h]
    norm_num [DecLit.toRat]
  · have h : parseFloatChars ("-5".toList.map commaToDot) =
        some ⟨true, 5, 0, 0⟩ := by decide
    rw [parse_amount, h]
    norm_num [DecLit.toRat]
  · have h : parseFloatChars ("abc".toList.map commaToDot) = none := by decide
    rw [parse_amount, h]
  · intro t
    unfold parse_amount
    rw [show (String.mk (t.toList.map commaToDot)).toList = t.toList.map commaToDot from rfl,
      List.map_map, commaToDot_idem]
  · intro t v h
    exact ⟨parse_amount_hundredths h, parse_amount_nonneg h⟩

/-- Witness for C2 at the concrete input `"12.345"`. -/
theorem parse_amount_spec_witness :
    parse_amount "12.345" = some (617 / 50) ∧
    (∃ k : ℤ, (617 / 50 : ℚ) = (k : ℚ) / 100) ∧ 0 ≤ (617 / 50 : ℚ) :=
  ⟨parse_amount_12_345,
    parse_amount_spec.2.2.2.2.2.2 "12.345" (617 / 50) parse_amount_12_345⟩

/-! ### Structural lemmas about the store adapters -/

theorem mem_upsertState {l : List StateRow} {row r : StateRow}
    (h : r ∈ upsertState l row) : r ∈ l ∨ r = row := by
  unfold upsertState at h
  by_cases hany : l.any (fun x => x.userId == row.userId)
  · rw [if_pos hany] at h
    obtain ⟨x, hx, hfx⟩ := List.mem_map.mp h
    by_cases hm : x.userId == row.userId
    · rw [if_pos hm] at hfx
      exact Or.inr hfx.symm
    · rw [if_neg hm] at hfx
      exact Or.inl (hfx ▸ hx)
  · rw [if_neg hany] at h
    rcases List.mem_append.mp h with h1 | h1
    · exact Or.inl h1
    · exact Or.inr (List.mem_singleton.mp h1)

theorem find?_map_update (l : List StateRow) (row : StateRow) :
    (l.map (fun r => if r.userId == row.userId then row else r)).find?
        (fun r => r.userId == row.userId) =
      if l.any (fun r => r.userId == row.userId) then some row else none := by
  induction l with
  | nil => rfl
  | cons x xs ih =>
      by_cases hx : x.userId == row.userId
      · simp only [List.map_cons, List.find?_cons, List.any_cons, hx]
        simp [List.find?_cons, Nat.beq_refl]
      · simp only [List.map_cons, List.find?_cons, List.any_cons, hx]
        simpa [hx] using ih

theorem find?_append_single (l : List StateRow) (row : StateRow)
    (h : ∀ x ∈ l, (x.userId == row.userId) = false) :
    (l ++ [row]).find? (fun r => r.userId == row.userId) = some row := by
  induction l with
  | nil => simp [List.find?_cons, Nat.beq_refl]
  | cons x xs ih =>
      have hx := h x (List.mem_cons_self x xs)
      simp only [List.cons_append, List.find?_cons, hx]
      exact ih (fun y hy => h y (List.mem_cons_of_mem x hy))

theorem find?_upsertState (l : List StateRow) (row : StateRow) :
    (upsertState l row).find? (fun r => r.userId == row.userId) = some row := by
  unfold upsertState
  by_cases hany : l.any (fun x => x.userId == row.userId)
  · rw [if_pos hany, find?_map_update, if_pos hany]
  · rw [if_neg hany]
    refine find?_append_single l row ?_
    intro x hx
    by_contra hc
    exact hany (List.any_eq_true.mpr ⟨x, hx, by simpa using hc⟩)

theorem filter_map_update (l : List StateRow) (row : StateRow) :
    (l.map (fun r => if r.userId == row.userId then row else r)).filter
        (fun r => r.userId == row.userId) =
      List.replicate ((l.filter (fun r => r.userId == row.userId)).length) row := by
  induction l with
  | nil => rfl
  | cons x xs ih =>
      by_cases hx : x.userId == row.userId
      · simp only [List.map_cons, List.filter_cons, hx, if_pos, Nat.beq_refl]
        simp only [ih, List.length_cons, List.replicate_succ]
        simp [Nat.beq_refl]
      · simp only [List.map_cons, List.filter_cons, hx]
        simpa [hx] using ih

theorem filter_upsertState (l : List StateRow) (row : StateRow)
    (h : (l.filter (fun r => r.userId == row.userId)).length ≤ 1) :
    (upsertState l row).filter (fun r => r.userId == row.userId) = [row] := by
  unfold upsertState
  by_cases hany : l.any (fun x => x.userId == row.userId)
  · rw [if_pos hany, filter_map_update]
    obtain ⟨x, hx, hpx⟩ := List.any_eq_true.mp hany
    have h1 : 1 ≤ (l.filter (fun r => r.userId == row.userId)).length := by
      have : x ∈ l.filter (fun r => r.userId == row.userId) :=
        List.mem_filter.mpr ⟨hx, hpx⟩
      exact List.length_pos_of_mem this
    have : (l.filter (fun r => r.userId == row.userId)).length = 1 := le_antisymm h h1
    rw [this]
    rfl
  · rw [if_neg hany, List.filter_append]
    have hnil : l.filter (fun r => r.userId == row.userId) = [] := by
      rw [List.filter_eq_nil_iff]
      intro x hx
      by_contra hc
      exact hany (List.any_eq_true.mpr ⟨x, hx, by simpa using hc⟩)
    rw [hnil]
    simp [List.filter_cons, Nat.beq_refl]

theorem filter_ne_map_update (l : List StateRow) (row : StateRow) :
    (l.map (fun r => if r.userId == row.userId then row else r)).filter
        (fun r => !(r.userId == row.userId)) =
      l.filter (fun r => !(r.userId == row.userId)) := by
  induction l with
  | nil => rfl
  | cons x xs ih =>
      by_cases hx : x.userId == row.userId
      · rw [List.map_cons, if_pos hx, List.filter_cons, List.filter_cons]
        have h1 : (!(row.userId == row.userId)) = false := by simp
        have h2 : (!(x.userId == row.userId)) = false := by rw [hx]; rfl
        rw [h1, h2]
        simp only [Bool.false_eq_true, if_false]
        exact ih
      · rw [List.map_cons, if_neg hx, List.filter_cons, List.filter_cons]
        have hxf : (x.userId == row.userId) = false := by
          cases h : (x.userId == row.userId) with
          | false => rfl
          | true => exact absurd h hx
        have h2 : (!(x.userId == row.userId)) = true := by rw [hxf]; rfl
        rw [h2]
        simp only [if_true]
        rw [ih]

theorem filter_ne_upsertState (l : List StateRow) (row : StateRow) :
    (upsertState l row).filter (fun r => !(r.userId == row.userId)) =
      l.filter (fun r => !(r.userId == row.userId)) := by
  unfold upsertState
  by_cases hany : l.any (fun x => x.userId == row.userId)
  · rw [if_pos hany]
    exact filter_ne_map_update l row
  · rw [if_neg hany, List.filter_append]
    simp [List.filter_cons, Nat.beq_refl]

theorem ensure_user_found (cfg : Config) (s : Store) (rest : List Bool)
    (tg chat : ℕ) (u : UserRow)
    (hallow : is_allowed cfg tg = true)
    (hfind : s.users.find? (fun x => x.tgUserId == tg) = some u) :
    ensure_user cfg s (false :: false :: rest) tg chat =
      (some u.id, { s with users := updateChat s.users u.id chat }, rest) := by
  unfold ensure_user
  rw [hallow]
  simp [nextFault, hfind]

theorem ensure_user_found_nil (cfg : Config) (s : Store) (tg chat : ℕ) (u : UserRow)
    (hallow : is_allowed cfg tg = true)
    (hfind : s.users.find? (fun x => x.tgUserId == tg) = some u) :
    ensure_user cfg s [] tg chat =
      (some u.id, { s with users := updateChat s.users u.id chat }, []) := by
  unfold ensure_user
  rw [hallow]
  simp [nextFault, hfind]

theorem handle_text_eq_dispatch (cfg : Config) (now : Time) (s : Store)
    (rest : List Bool) (m : Msg) (u : UserRow)
    (hallow : is_allowed cfg m.tgUserId = true)
    (hfind : s.users.find? (fun x => x.tgUserId == m.tgUserId) = some u) :
    handle_text cfg now s (false :: false :: rest) m =
      dispatch now { s with users := updateChat s.users u.id m.chatId } rest u.id
        (pyStrip m.text) := by
  unfold handle_text
  rw [hallow, ensure_user_found cfg s rest m.tgUserId m.chatId u hallow hfind]
  rfl

theorem handle_text_eq_dispatch_nil (cfg : Config) (now : Time) (s : Store)
    (m : Msg) (u : UserRow)
    (hallow : is_allowed cfg m.tgUserId = true)
    (hfind : s.users.find? (fun x => x.tgUserId == m.tgUserId) = some u) :
    handle_text cfg now s [] m =
      dispatch now { s with users := updateChat s.users u.id m.chatId } [] u.id
        (pyStrip m.text) := by
  unfold handle_text
  rw [hallow, ensure_user_found_nil cfg s m.tgUserId m.chatId u hallow hfind]
  rfl

/-- C3: whatever the current pending-action state is, a message whose
(stripped) text is the fixed command `Add expense` is handled before any
state-dependent branch: the pending action row is overwritten to
`await_amount` with no staged amount (any previously staged amount is
discarded), no expense row is created, and the amount prompt is the
reply. No fault is scheduled. -/
theorem add_expense_overwrites (cfg : Config) (now : Time) (s : Store) (m : Msg)
    (u : UserRow)
    (hallow : is_allowed cfg m.tgUserId = true)
    (hfind : s.users.find? (fun x => x.tgUserId == m.tgUserId) = some u)
    (htext : pyStrip m.text = "Add expense") :
    (handle_text cfg now s [] m).1.botState.find? (fun r => r.userId == u.id) =
        some ⟨u.id, some "await_amount", none, now⟩ ∧
    (handle_text cfg now s [] m).1.expenses = s.expenses ∧
    (handle_text cfg now s [] m).2 = [OutMsg.promptAmount] := by
  rw [handle_text_eq_dispatch_nil cfg now s m u hallow hfind, htext]
  unfold dispatch addExpenseCmd set_state nextFault
  simp only [if_pos rfl, if_neg, Bool.false_eq_true, if_false]
  refine ⟨?_, rfl, rfl⟩
  exact find?_upsertState s.botState ⟨u.id, some "await_amount", none, now⟩

/-- Witness for C3: a user mid-entry in `await_title` with staged
amount `10` sends `Add expense`; the staged amount is discarded. -/
theorem add_expense_overwrites_witness :
    (is_allowed ⟨[1]⟩ (Msg.mk 1 5 "Add expense").tgUserId = true ∧
      (Store.mk [⟨7, 1, 5⟩] [⟨7, some "await_title", some 10, ⟨2025, 10, 2⟩⟩] [] []).users.find?
          (fun x => x.tgUserId == (Msg.mk 1 5 "Add expense").tgUserId) = some ⟨7, 1, 5⟩ ∧
      pyStrip (Msg.mk 1 5 "Add expense").text = "Add expense") ∧
    ((handle_text ⟨[1]⟩ ⟨2025, 10, 3⟩
          (Store.mk [⟨7, 1, 5⟩] [⟨7, some "await_title", some 10, ⟨2025, 10, 2⟩⟩] [] []) []
          (Msg.mk 1 5 "Add expense")).1.botState.find? (fun r => r.userId == (7 : ℕ)) =
        some ⟨7, some "await_amount", none, ⟨2025, 10, 3⟩⟩ ∧
      (handle_text ⟨[1]⟩ ⟨2025, 10, 3⟩
          (Store.mk [⟨7, 1, 5⟩] [⟨7, some "await_title", some 10, ⟨2025, 10, 2⟩⟩] [] []) []
          (Msg.mk 1 5 "Add expense")).1.expenses =
        (Store.mk [⟨7, 1, 5⟩] [⟨7, some "await_title", some 10, ⟨2025, 10, 2⟩⟩] [] []).expenses ∧
      (handle_text ⟨[1]⟩ ⟨2025, 10, 3⟩
          (Store.mk [⟨7, 1, 5⟩] [⟨7, some "await_title", some 10, ⟨2025, 10, 2⟩⟩] [] []) []
          (Msg.mk 1 5 "Add expense")).2 = [OutMsg.promptAmount]) :=
  ⟨⟨by decide, by decide, by decide⟩,
    add_expense_overwrites ⟨[1]⟩ ⟨2025, 10, 3⟩
      (Store.mk [⟨7, 1, 5⟩] [⟨7, some "await_title", some 10, ⟨2025, 10, 2⟩⟩] [] [])
      (Msg.mk 1 5 "Add expense") ⟨7, 1, 5⟩ (by decide) (by decide) (by decide)⟩

theorem set_state_nil (s : Store) (uid : ℕ) (action : Option String)
    (temp : Option ℚ) (t : Time) :
    set_state s [] uid action temp t =
      ({ s with botState := upsertState s.botState ⟨uid, action, temp, t⟩ }, []) := rfl

/-- C9: `set_state` upserts by owner with last-write-wins semantics:
calling it twice with the same owner and arguments (the store stamps a
fresh `updated_at` on each call) leaves exactly one pending-action row
for that owner, equal to the last call's row, and leaves every other
owner's rows untouched. The store is assumed to satisfy the unique-key
constraint on `user_id` (at most one row per owner). -/
theorem set_state_idempotent (s : Store) (uid : ℕ) (action : Option String)
    (temp : Option ℚ) (t1 t2 : Time)
    (hone : (s.botState.filter (fun r => r.userId == uid)).length ≤ 1) :
    (set_state (set_state s [] uid action temp t1).1 [] uid action temp t2).1.botState.filter
        (fun r => r.userId == uid) = [⟨uid, action, temp, t2⟩] ∧
    (set_state (set_state s [] uid action temp t1).1 [] uid action temp t2).1.botState.filter
        (fun r => !(r.userId == uid)) = s.botState.filter (fun r => !(r.userId == uid)) := by
  rw [set_state_nil, set_state_nil]
  dsimp only
  constructor
  · have e1 : (upsertState s.botState (⟨uid, action, temp, t1⟩ : StateRow)).filter
        (fun r => r.userId == uid) = [⟨uid, action, temp, t1⟩] :=
      filter_upsertState s.botState ⟨uid, action, temp, t1⟩ hone
    have h1 : ((upsertState s.botState (⟨uid, action, temp, t1⟩ : StateRow)).filter
        (fun r => r.userId == uid)).length ≤ 1 := by
      rw [e1]
      exact le_refl 1
    exact filter_upsertState (upsertState s.botState ⟨uid, action, temp, t1⟩)
      ⟨uid, action, temp, t2⟩ h1
  · have e2 : (upsertState (upsertState s.botState ⟨uid, action, temp, t1⟩)
        (⟨uid, action, temp, t2⟩ : StateRow)).filter (fun r => !(r.userId == uid)) =
        (upsertState s.botState (⟨uid, action, temp, t1⟩ : StateRow)).filter
          (fun r => !(r.userId == uid)) :=
      filter_ne_upsertState (upsertState s.botState ⟨uid, action, temp, t1⟩)
        ⟨uid, action, temp, t2⟩
    have e3 : (upsertState s.botState (⟨uid, action, temp, t1⟩ : StateRow)).filter
        (fun r => !(r.userId == uid)) =
        s.botState.filter (fun r => !(r.userId == uid)) :=
      filter_ne_upsertState s.botState ⟨uid, action, temp, t1⟩
    rw [e2, e3]

/-- Witness for C9: a store holding one row for owner `7` and one row
for owner `8`; two identical `set_state` calls for owner `7`. -/
theorem set_state_idempotent_witness :
    ((Store.mk [] [⟨7, some "await_amount", none, ⟨2025, 9, 1⟩⟩,
          ⟨8, some "await_title", some 3, ⟨2025, 9, 2⟩⟩] [] []).botState.filter
        (fun r => r.userId == (7 : ℕ))).length ≤ 1 ∧
    ((set_state (set_state (Store.mk [] [⟨7, some "await_amount", none, ⟨2025, 9, 1⟩⟩,
              ⟨8, some "await_title", some 3, ⟨2025, 9, 2⟩⟩] [] []) [] 7
            (some "await_title") (some 5) ⟨2025, 10, 1⟩).1 [] 7
          (some "await_title") (some 5) ⟨2025, 10, 2⟩).1.botState.filter
        (fun r => r.userId == (7 : ℕ)) =
        [⟨7, some "await_title", some 5, ⟨2025, 10, 2⟩⟩] ∧
      (set_state (set_state (Store.mk [] [⟨7, some "await_amount", none, ⟨2025, 9, 1⟩⟩,
              ⟨8, some "await_title", some 3, ⟨2025, 9, 2⟩⟩] [] []) [] 7
            (some "await_title") (some 5) ⟨2025, 10, 1⟩).1 [] 7
          (some "await_title") (some 5) ⟨2025, 10, 2⟩).1.botState.filter
        (fun r => !(r.userId == (7 : ℕ))) =
        (Store.mk [] [⟨7, some "await_amount", none, ⟨2025, 9, 1⟩⟩,
            ⟨8, some "await_title", some 3, ⟨2025, 9, 2⟩⟩] [] []).botState.filter
          (fun r => !(r.userId == (7 : ℕ)))) :=
  ⟨by decide,
    set_state_idempotent
      (Store.mk [] [⟨7, some "await_amount", none, ⟨2025, 9, 1⟩⟩,
        ⟨8, some "await_title", some 3, ⟨2025, 9, 2⟩⟩] [] [])
      7 (some "await_title") (some 5) ⟨2025, 10, 1⟩ ⟨2025, 10, 2⟩ (by decide)⟩

/-- C5: an event whose Telegram identity is not in the allow-list gets
the denial message and nothing else: the store is returned exactly as
it was (no user row created, no pending-action state read or written),
whatever the store contents and whatever faults are scheduled. -/
theorem unauthorized_denied (cfg : Config) (now : Time) (s : Store)
    (sched : List Bool) (m : Msg)
    (h : is_allowed cfg m.tgUserId = false) :
    handle_text cfg now s sched m = (s, [OutMsg.denied]) := by
  unfold handle_text
  rw [h]
  rfl

/-- Witness for C5: identity `2` against allow-list `[1]`, with a
nonempty store and a fault-laden schedule. -/
theorem unauthorized_denied_witness :
    is_allowed ⟨[1]⟩ (Msg.mk 2 5 "Add expense").tgUserId = false ∧
    handle_text ⟨[1]⟩ ⟨2025, 10, 3⟩
        (Store.mk [⟨7, 1, 5⟩] [⟨7, some "await_amount", none, ⟨2025, 10, 2⟩⟩] [] [])
        [true, true] (Msg.mk 2 5 "Add expense") =
      (Store.mk [⟨7, 1, 5⟩] [⟨7, some "await_amount", none, ⟨2025, 10, 2⟩⟩] [] [],
        [OutMsg.denied]) :=
  ⟨by decide,
    unauthorized_denied ⟨[1]⟩ ⟨2025, 10, 3⟩
      (Store.mk [⟨7, 1, 5⟩] [⟨7, some "await_amount", none, ⟨2025, 10, 2⟩⟩] [] [])
      [true, true] (Msg.mk 2 5 "Add expense") (by decide)⟩

/-- C8: `See last month` reads the precomputed monthly total keyed by
the first day of the previous calendar month — a January request wraps
to December of the previous year — answers zero when no row exists for
that key (or its total column is null), sends a total-only report (no
item listing), and changes no persisted state. No fault is scheduled. -/
theorem see_last_month_spec (cfg : Config) (now : Time) (s : Store) (m : Msg)
    (u : UserRow)
    (hallow : is_allowed cfg m.tgUserId = true)
    (hfind : s.users.find? (fun x => x.tgUserId == m.tgUserId) = some u)
    (htext : pyStrip m.text = "See last month")
    (hmonth : 1 ≤ now.month) :
    (handle_text cfg now s [] m).1.botState = s.botState ∧
    (handle_text cfg now s [] m).1.expenses = s.expenses ∧
    (handle_text cfg now s [] m).1.monthly = s.monthly ∧
    (handle_text cfg now s [] m).2 =
      [OutMsg.reportLastMonth
        (if now.month = 1 then now.year - 1 else now.year,
          if now.month - 1 = 0 then 12 else now.month - 1)
        (match s.monthly.find? (fun r => r.userId == u.id &&
            r.monthStart == (if now.month = 1 then now.year - 1 else now.year,
              if now.month - 1 = 0 then 12 else now.month - 1)) with
          | some r => r.total.getD 0
          | none => 0)] ∧
    ((if now.month = 1 then now.year - 1 else now.year,
        if now.month - 1 = 0 then 12 else now.month - 1) =
      if now.month = 1 then (now.year - 1, 12) else (now.year, now.month - 1)) ∧
    (s.monthly.find? (fun r => r.userId == u.id &&
        r.monthStart == (if now.month = 1 then now.year - 1 else now.year,
          if now.month - 1 = 0 then 12 else now.month - 1)) = none →
      (handle_text cfg now s [] m).2 =
        [OutMsg.reportLastMonth
          (if now.month = 1 then now.year - 1 else now.year,
            if now.month - 1 = 0 then 12 else now.month - 1) 0]) := by
  rw [handle_text_eq_dispatch_nil cfg now s m u hallow hfind, htext]
  unfold dispatch seeLastMonthCmd nextFault
  rw [if_neg (by decide : ¬ ("See last month" = "Add expense")),
    if_neg (by decide : ¬ ("See last month" = "See expenses")),
    if_pos rfl]
  dsimp only
  refine ⟨rfl, rfl, rfl, rfl, ?_, ?_⟩
  · by_cases h1 : now.month = 1
    · rw [if_pos h1, if_pos (by omega : now.month - 1 = 0), if_pos h1]
    · rw [if_neg h1, if_neg (by omega : ¬ (now.month - 1 = 0)), if_neg h1]
  · intro hnone
    rw [hnone]
    rfl

/-- Witness for C8: a January request with no monthly-total row. -/
theorem see_last_month_spec_witness :
    (is_allowed ⟨[1]⟩ (Msg.mk 1 5 "See last month").tgUserId = true ∧
      (Store.mk [⟨7, 1, 5⟩] [] [] []).users.find?
          (fun x => x.tgUserId == (Msg.mk 1 5 "See last month").tgUserId) = some ⟨7, 1, 5⟩ ∧
      pyStrip (Msg.mk 1 5 "See last month").text = "See last month" ∧
      1 ≤ (Time.mk 2025 1 4).month) ∧
    (handle_text ⟨[1]⟩ ⟨2025, 1, 4⟩ (Store.mk [⟨7, 1, 5⟩] [] [] []) []
        (Msg.mk 1 5 "See last month")).1.botState = (Store.mk [⟨7, 1, 5⟩] [] [] []).botState ∧
    (handle_text ⟨[1]⟩ ⟨2025, 1, 4⟩ (Store.mk [⟨7, 1, 5⟩] [] [] []) []
        (Msg.mk 1 5 "See last month")).2 = [OutMsg.reportLastMonth (2024, 12) 0] :=
  ⟨⟨by decide, by decide, by decide, by decide⟩,
    ((see_last_month_spec ⟨[1]⟩ ⟨2025, 1, 4⟩ (Store.mk [⟨7, 1, 5⟩] [] [] [])
        (Msg.mk 1 5 "See last month") ⟨7, 1, 5⟩
        (by decide) (by decide) (by decide) (by decide)).1),
    (see_last_month_spec ⟨[1]⟩ ⟨2025, 1, 4⟩ (Store.mk [⟨7, 1, 5⟩] [] [] [])
        (Msg.mk 1 5 "See last month") ⟨7, 1, 5⟩
        (by decide) (by decide) (by decide) (by decide)).2.2.2.2.2 (by decide)⟩

theorem get_state_nil (s : Store) (uid : ℕ) :
    get_state s [] uid = (s.botState.find? (fun r => r.userId == uid), []) := rfl

/-- C4: in state `await_title`, a non-command message whose normalized
title (whitespace runs collapsed, ends trimmed) is non-empty causes
exactly one expense row to be appended with the staged amount and the
normalized title, the saved confirmation to be sent, and the
pending-action row to be deleted (back to IDLE); a message normalizing
to the empty title instead gets the title-empty prompt with all state
unchanged. The spec's normalization example is also checked. No fault
is scheduled. -/
theorem await_title_commit (cfg : Config) (now : Time) (s : Store) (m : Msg)
    (u : UserRow) (st : StateRow) (a : ℚ)
    (hallow : is_allowed cfg m.tgUserId = true)
    (hfind : s.users.find? (fun x => x.tgUserId == m.tgUserId) = some u)
    (hnc1 : pyStrip m.text ≠ "Add expense")
    (hnc2 : pyStrip m.text ≠ "See expenses")
    (hnc3 : pyStrip m.text ≠ "See last month")
    (hstate : s.botState.find? (fun r => r.userId == u.id) = some st)
    (hpend : st.pending = some "await_title")
    (hamt : st.tempAmount = some a) :
    (normalizeTitle (pyStrip m.text) ≠ "" →
      (handle_text cfg now s [] m).1.expenses =
          s.expenses ++ [⟨u.id, a, normalizeTitle (pyStrip m.text), now⟩] ∧
      (handle_text cfg now s [] m).1.botState =
          s.botState.filter (fun r => !(r.userId == u.id)) ∧
      (handle_text cfg now s [] m).2 =
          [OutMsg.saved a (normalizeTitle (pyStrip m.text))]) ∧
    (normalizeTitle (pyStrip m.text) = "" →
      (handle_text cfg now s [] m).1.botState = s.botState ∧
      (handle_text cfg now s [] m).1.expenses = s.expenses ∧
      (handle_text cfg now s [] m).2 = [OutMsg.titleEmpty]) ∧
    normalizeTitle "  Grocery   Shopping  " = "Grocery Shopping" := by
  rw [handle_text_eq_dispatch_nil cfg now s m u hallow hfind]
  unfold dispatch
  rw [if_neg hnc1, if_neg hnc2, if_neg hnc3, get_state_nil]
  dsimp only
  rw [hstate]
  unfold stateStep
  dsimp only
  rw [hpend,
    if_neg (by decide : ¬ ((some "await_title" : Option String) = some "await_amount")),
    if_pos rfl, hamt]
  constructor
  · intro htitle
    rw [if_neg htitle]
    exact ⟨rfl, rfl, rfl⟩
  constructor
  · intro htitle
    rw [if_pos htitle]
    exact ⟨rfl, rfl, rfl⟩
  · decide

/-- Witness for C4: staged amount `10`, message `" Coffee  shop "`. -/
theorem await_title_commit_witness :
    (is_allowed ⟨[1]⟩ (Msg.mk 1 5 " Coffee  shop ").tgUserId = true ∧
      (Store.mk [⟨7, 1, 5⟩] [⟨7, some "await_title", some 10, ⟨2025, 10, 2⟩⟩] [] []).users.find?
          (fun x => x.tgUserId == (Msg.mk 1 5 " Coffee  shop ").tgUserId) = some ⟨7, 1, 5⟩ ∧
      pyStrip (Msg.mk 1 5 " Coffee  shop ").text ≠ "Add expense" ∧
      (Store.mk [⟨7, 1, 5⟩] [⟨7, some "await_title", some 10, ⟨2025, 10, 2⟩⟩] [] []).botState.find?
          (fun r => r.userId == (7 : ℕ)) = some ⟨7, some "await_title", some 10, ⟨2025, 10, 2⟩⟩ ∧
      normalizeTitle (pyStrip (Msg.mk 1 5 " Coffee  shop ").text) ≠ "") ∧
    ((handle_text ⟨[1]⟩ ⟨2025, 10, 3⟩
          (Store.mk [⟨7, 1, 5⟩] [⟨7, some "await_title", some 10, ⟨2025, 10, 2⟩⟩] [] []) []
          (Msg.mk 1 5 " Coffee  shop ")).1.expenses =
        [] ++ [⟨7, 10, normalizeTitle (pyStrip " Coffee  shop "), ⟨2025, 10, 3⟩⟩] ∧
      (handle_text ⟨[1]⟩ ⟨2025, 10, 3⟩
          (Store.mk [⟨7, 1, 5⟩] [⟨7, some "await_title", some 10, ⟨2025, 10, 2⟩⟩] [] []) []
          (Msg.mk 1 5 " Coffee  shop ")).1.botState =
        (Store.mk [⟨7, 1, 5⟩] [⟨7, some "await_title", some 10, ⟨2025, 10, 2⟩⟩] [] []).botState.filter
          (fun r => !(r.userId == (7 : ℕ))) ∧
      (handle_text ⟨[1]⟩ ⟨2025, 10, 3⟩
          (Store.mk [⟨7, 1, 5⟩] [⟨7, some "await_title", some 10, ⟨2025, 10, 2⟩⟩] [] []) []
          (Msg.mk 1 5 " Coffee  shop ")).2 =
        [OutMsg.saved 10 (normalizeTitle (pyStrip " Coffee  shop "))]) :=
  ⟨⟨by decide, by decide, by decide, by decide, by decide⟩,
    (await_title_commit ⟨[1]⟩ ⟨2025, 10, 3⟩
        (Store.mk [⟨7, 1, 5⟩] [⟨7, some "await_title", some 10, ⟨2025, 10, 2⟩⟩] [] [])
        (Msg.mk 1 5 " Coffee  shop ") ⟨7, 1, 5⟩ ⟨7, some "await_title", some 10, ⟨2025, 10, 2⟩⟩ 10
        (by decide) (by decide) (by decide) (by decide) (by decide) (by decide)
        (by decide) (by decide)).1 (by decide)⟩

theorem get_state_cons_false (s : Store) (rest : List Bool) (uid : ℕ) :
    get_state s (false :: rest) uid =
      (s.botState.find? (fun r => r.userId == uid), rest) := rfl

/-- C6: the post-commit cleanup is best-effort. With a fault scheduled
on the `clear_state` delete (fifth store call) but a successful expense
insert, the user still receives the saved confirmation carrying the
staged amount and the normalized title; the expense row is in the
store, and the stale pending-action row survives. -/
theorem cleanup_best_effort (cfg : Config) (now : Time) (s : Store) (m : Msg)
    (u : UserRow) (st : StateRow) (a : ℚ)
    (hallow : is_allowed cfg m.tgUserId = true)
    (hfind : s.users.find? (fun x => x.tgUserId == m.tgUserId) = some u)
    (hnc1 : pyStrip m.text ≠ "Add expense")
    (hnc2 : pyStrip m.text ≠ "See expenses")
    (hnc3 : pyStrip m.text ≠ "See last month")
    (hstate : s.botState.find? (fun r => r.userId == u.id) = some st)
    (hpend : st.pending = some "await_title")
    (hamt : st.tempAmount = some a)
    (htitle : normalizeTitle (pyStrip m.text) ≠ "") :
    (handle_text cfg now s [false, false, false, false, true] m).2 =
        [OutMsg.saved a (normalizeTitle (pyStrip m.text))] ∧
    (handle_text cfg now s [false, false, false, false, true] m).1.expenses =
        s.expenses ++ [⟨u.id, a, normalizeTitle (pyStrip m.text), now⟩] ∧
    (handle_text cfg now s [false, false, false, false, true] m).1.botState =
        s.botState := by
  rw [handle_text_eq_dispatch cfg now s [false, false, true] m u hallow hfind]
  unfold dispatch
  rw [if_neg hnc1, if_neg hnc2, if_neg hnc3, get_state_cons_false]
  dsimp only
  rw [hstate]
  unfold stateStep
  dsimp only
  rw [hpend,
    if_neg (by decide : ¬ ((some "await_title" : Option String) = some "await_amount")),
    if_pos rfl, hamt, if_neg htitle]
  exact ⟨rfl, rfl, rfl⟩

/-- Witness for C6: clear fails after a successful insert of
`10 — "Coffee"`; the confirmation is still sent. -/
theorem cleanup_best_effort_witness :
    (is_allowed ⟨[1]⟩ (Msg.mk 1 5 "Coffee").tgUserId = true ∧
      (Store.mk [⟨7, 1, 5⟩] [⟨7, some "await_title", some 10, ⟨2025, 10, 2⟩⟩] [] []).users.find?
          (fun x => x.tgUserId == (Msg.mk 1 5 "Coffee").tgUserId) = some ⟨7, 1, 5⟩ ∧
      (Store.mk [⟨7, 1, 5⟩] [⟨7, some "await_title", some 10, ⟨2025, 10, 2⟩⟩] [] []).botState.find?
          (fun r => r.userId == (7 : ℕ)) = some ⟨7, some "await_title", some 10, ⟨2025, 10, 2⟩⟩ ∧
      normalizeTitle (pyStrip (Msg.mk 1 5 "Coffee").text) ≠ "") ∧
    ((handle_text ⟨[1]⟩ ⟨2025, 10, 3⟩
          (Store.mk [⟨7, 1, 5⟩] [⟨7, some "await_title", some 10, ⟨2025, 10, 2⟩⟩] [] [])
          [false, false, false, false, true] (Msg.mk 1 5 "Coffee")).2 =
        [OutMsg.saved 10 (normalizeTitle (pyStrip "Coffee"))] ∧
      (handle_text ⟨[1]⟩ ⟨2025, 10, 3⟩
          (Store.mk [⟨7, 1, 5⟩] [⟨7, some "await_title", some 10, ⟨2025, 10, 2⟩⟩] [] [])
          [false, false, false, false, true] (Msg.mk 1 5 "Coffee")).1.expenses =
        [] ++ [⟨7, 10, normalizeTitle (pyStrip "Coffee"), ⟨2025, 10, 3⟩⟩] ∧
      (handle_text ⟨[1]⟩ ⟨2025, 10, 3⟩
          (Store.mk [⟨7, 1, 5⟩] [⟨7, some "await_title", some 10, ⟨2025, 10, 2⟩⟩] [] [])
          [false, false, false, false, true] (Msg.mk 1 5 "Coffee")).1.botState =
        (Store.mk [⟨7, 1, 5⟩] [⟨7, some "await_title", some 10, ⟨2025, 10, 2⟩⟩] [] []).botState) :=
  ⟨⟨by decide, by decide, by decide, by decide⟩,
    cleanup_best_effort ⟨[1]⟩ ⟨2025, 10, 3⟩
      (Store.mk [⟨7, 1, 5⟩] [⟨7, some "await_title", some 10, ⟨2025, 10, 2⟩⟩] [] [])
      (Msg.mk 1 5 "Coffee") ⟨7, 1, 5⟩ ⟨7, some "await_title", some 10, ⟨2025, 10, 2⟩⟩ 10
      (by decide) (by decide) (by decide) (by decide) (by decide) (by decide)
      (by decide) (by decide) (by decide)⟩

/-- C7: the `See expenses` report's total is the handler-side sum of
the amounts of all of the user's expense rows in the month-to-date
window, and its listing is the first 10 rows of that same window sorted
most-recent-first; the listing is sorted, is a prefix of a permutation
of the window, has at most 10 rows, and no persisted state (pending
action included) is touched. No fault is scheduled. -/
theorem see_expenses_spec (cfg : Config) (now : Time) (s : Store) (m : Msg)
    (u : UserRow)
    (hallow : is_allowed cfg m.tgUserId = true)
    (hfind : s.users.find? (fun x => x.tgUserId == m.tgUserId) = some u)
    (htext : pyStrip m.text = "See expenses") :
    (handle_text cfg now s [] m).1.botState = s.botState ∧
    (handle_text cfg now s [] m).1.expenses = s.expenses ∧
    (handle_text cfg now s [] m).1.monthly = s.monthly ∧
    (handle_text cfg now s [] m).2 =
      [OutMsg.reportThisMonth
        (((s.expenses.filter (inWindow u.id now)).map (fun r => r.amount)).sum)
        ((List.insertionSort recentFirst (s.expenses.filter (inWindow u.id now))).take 10)] ∧
    List.Sorted recentFirst
      ((List.insertionSort recentFirst (s.expenses.filter (inWindow u.id now))).take 10) ∧
    (List.insertionSort recentFirst (s.expenses.filter (inWindow u.id now))).Perm
      (s.expenses.filter (inWindow u.id now)) ∧
    ((List.insertionSort recentFirst (s.expenses.filter (inWindow u.id now))).take 10).length
      ≤ 10 := by
  rw [handle_text_eq_dispatch_nil cfg now s m u hallow hfind, htext]
  unfold dispatch seeExpensesCmd nextFault
  rw [if_neg (by decide : ¬ ("See expenses" = "Add expense")), if_pos rfl]
  dsimp only
  refine ⟨rfl, rfl, rfl, rfl, ?_, ?_, ?_⟩
  · exact List.Pairwise.sublist
      (List.take_sublist 10 (List.insertionSort recentFirst
        (s.expenses.filter (inWindow u.id now))))
      (List.sorted_insertionSort recentFirst (s.expenses.filter (inWindow u.id now)))
  · exact List.perm_insertionSort recentFirst (s.expenses.filter (inWindow u.id now))
  · exact List.length_take_le 10 _

/-- Witness for C7: one in-window row, one out-of-window row, and a row
of another user. -/
theorem see_expenses_spec_witness :
    (is_allowed ⟨[1]⟩ (Msg.mk 1 5 "See expenses").tgUserId = true ∧
      (Store.mk [⟨7, 1, 5⟩] [] [⟨7, 3, "a", ⟨2025, 10, 2⟩⟩, ⟨7, 4, "b", ⟨2025, 9, 30⟩⟩,
          ⟨9, 5, "c", ⟨2025, 10, 7⟩⟩] []).users.find?
          (fun x => x.tgUserId == (Msg.mk 1 5 "See expenses").tgUserId) = some ⟨7, 1, 5⟩ ∧
      pyStrip (Msg.mk 1 5 "See expenses").text = "See expenses") ∧
    (handle_text ⟨[1]⟩ ⟨2025, 10, 3⟩
        (Store.mk [⟨7, 1, 5⟩] [] [⟨7, 3, "a", ⟨2025, 10, 2⟩⟩, ⟨7, 4, "b", ⟨2025, 9, 30⟩⟩,
          ⟨9, 5, "c", ⟨2025, 10, 7⟩⟩] []) []
        (Msg.mk 1 5 "See expenses")).1.botState = [] ∧
    (handle_text ⟨[1]⟩ ⟨2025, 10, 3⟩
        (Store.mk [⟨7, 1, 5⟩] [] [⟨7, 3, "a", ⟨2025, 10, 2⟩⟩, ⟨7, 4, "b", ⟨2025, 9, 30⟩⟩,
          ⟨9, 5, "c", ⟨2025, 10, 7⟩⟩] []) []
        (Msg.mk 1 5 "See expenses")).2 =
      [OutMsg.reportThisMonth
        ((((Store.mk [⟨7, 1, 5⟩] [] [⟨7, 3, "a", ⟨2025, 10, 2⟩⟩, ⟨7, 4, "b", ⟨2025, 9, 30⟩⟩,
            ⟨9, 5, "c", ⟨2025, 10, 7⟩⟩] []).expenses.filter
          (inWindow 7 ⟨2025, 10, 3⟩)).map (fun r => r.amount)).sum)
        ((List.insertionSort recentFirst
          ((Store.mk [⟨7, 1, 5⟩] [] [⟨7, 3, "a", ⟨2025, 10, 2⟩⟩, ⟨7, 4, "b", ⟨2025, 9, 30⟩⟩,
            ⟨9, 5, "c", ⟨2025, 10, 7⟩⟩] []).expenses.filter
            (inWindow 7 ⟨2025, 10, 3⟩))).take 10)] :=
  ⟨⟨by decide, by decide, by decide⟩,
    (see_expenses_spec ⟨[1]⟩ ⟨2025, 10, 3⟩
        (Store.mk [⟨7, 1, 5⟩] [] [⟨7, 3, "a", ⟨2025, 10, 2⟩⟩, ⟨7, 4, "b", ⟨2025, 9, 30⟩⟩,
          ⟨9, 5, "c", ⟨2025, 10, 7⟩⟩] []) (Msg.mk 1 5 "See expenses") ⟨7, 1, 5⟩
        (by decide) (by decide) (by decide)).1,
    (see_expenses_spec ⟨[1]⟩ ⟨2025, 10, 3⟩
        (Store.mk [⟨7, 1, 5⟩] [] [⟨7, 3, "a", ⟨2025, 10, 2⟩⟩, ⟨7, 4, "b", ⟨2025, 9, 30⟩⟩,
          ⟨9, 5, "c", ⟨2025, 10, 7⟩⟩] []) (Msg.mk 1 5 "See expenses") ⟨7, 1, 5⟩
        (by decide) (by decide) (by decide)).2.2.2.1⟩

/-- C1 (counterexample): with the `set_state` upsert failing (third
store call of an `Add expense` event), the persisted state is indeed
unchanged, but no failure notice is sent and the transition is not
aborted: the reply is the normal amount prompt. -/
theorem storeError_notice_counterexample :
    handle_text ⟨[1]⟩ ⟨2025, 10, 3⟩ (Store.mk [⟨7, 1, 5⟩] [] [] [])
        [false, false, true] (Msg.mk 1 5 "Add expense") =
      (Store.mk [⟨7, 1, 5⟩] [] [] [], [OutMsg.promptAmount]) ∧
    OutMsg.promptAmount ≠ OutMsg.saveFailed ∧
    OutMsg.promptAmount ≠ OutMsg.accessError := by
  exact ⟨by decide, by decide, by decide⟩

/-- Concrete evaluation of `parse_amount` at the integer input `"5"`. -/
theorem parse_amount_5 : parse_amount "5" = some 5 := by
  have h : parseFloatChars ("5".toList.map commaToDot) = some ⟨false, 5, 0, 0⟩ := by
    decide
  rw [parse_amount, h]
  norm_num [DecLit.toRat, round2, rhe]

/-- C1 (amended): a `StoreError` on any of the claim's named call sites
never partially applies a transition — the persisted pending-action
state and the expense table are exactly as before — but among them no
generic failure notice is sent: a failing `set_state` upsert is
silently ignored at both of its call sites, with the normal success
reply still sent (the amount prompt in the `Add expense` branch, the
staged-amount confirmation in the amount-staging branch); a failing
state load falls through to the generic help reply; failing expense
list/sum reads render as an empty zero-total report; a failing
monthly-total read renders as a zero total. The expense insert is the
one call whose failure sends a failure notice, and it too leaves the
persisted state and the expense table unchanged. -/
theorem storeError_no_partial_application (cfg : Config) (now : Time) (s : Store)
    (m : Msg) (u : UserRow)
    (hallow : is_allowed cfg m.tgUserId = true)
    (hfind : s.users.find? (fun x => x.tgUserId == m.tgUserId) = some u) :
    (pyStrip m.text = "Add expense" →
      (handle_text cfg now s [false, false, true] m).1.botState = s.botState ∧
      (handle_text cfg now s [false, false, true] m).1.expenses = s.expenses ∧
      (handle_text cfg now s [false, false, true] m).2 = [OutMsg.promptAmount]) ∧
    (pyStrip m.text ≠ "Add expense" → pyStrip m.text ≠ "See expenses" →
        pyStrip m.text ≠ "See last month" →
      (handle_text cfg now s [false, false, true] m).1.botState = s.botState ∧
      (handle_text cfg now s [false, false, true] m).1.expenses = s.expenses ∧
      (handle_text cfg now s [false, false, true] m).2 = [OutMsg.help]) ∧
    (pyStrip m.text = "See expenses" →
      (handle_text cfg now s [false, false, true, true] m).1.botState = s.botState ∧
      (handle_text cfg now s [false, false, true, true] m).1.expenses = s.expenses ∧
      (handle_text cfg now s [false, false, true, true] m).2 =
        [OutMsg.reportThisMonth 0 []]) ∧
    (pyStrip m.text = "See last month" →
      (handle_text cfg now s [false, false, true] m).1.botState = s.botState ∧
      (handle_text cfg now s [false, false, true] m).1.expenses = s.expenses ∧
      (handle_text cfg now s [false, false, true] m).2 =
        [OutMsg.reportLastMonth
          (if now.month = 1 then now.year - 1 else now.year,
            if now.month - 1 = 0 then 12 else now.month - 1) 0]) ∧
    (pyStrip m.text ≠ "Add expense" → pyStrip m.text ≠ "See expenses" →
        pyStrip m.text ≠ "See last month" →
      ∀ (st : StateRow) (a : ℚ),
      s.botState.find? (fun r => r.userId == u.id) = some st →
      st.pending = some "await_amount" →
      parse_amount (pyStrip m.text) = some a →
      a ≠ 0 →
      (handle_text cfg now s [false, false, false, true] m).1.botState = s.botState ∧
      (handle_text cfg now s [false, false, false, true] m).1.expenses = s.expenses ∧
      (handle_text cfg now s [false, false, false, true] m).2 = [OutMsg.amountOk a]) ∧
    (pyStrip m.text ≠ "Add expense" → pyStrip m.text ≠ "See expenses" →
        pyStrip m.text ≠ "See last month" →
      ∀ (st : StateRow) (a : ℚ),
      s.botState.find? (fun r => r.userId == u.id) = some st →
      st.pending = some "await_title" →
      st.tempAmount = some a →
      normalizeTitle (pyStrip m.text) ≠ "" →
      (handle_text cfg now s [false, false, false, true] m).1.botState = s.botState ∧
      (handle_text cfg now s [false, false, false, true] m).1.expenses = s.expenses ∧
      (handle_text cfg now s [false, false, false, true] m).2 = [OutMsg.saveFailed]) := by
  refine ⟨?_, ?_, ?_, ?_, ?_, ?_⟩
  · intro htext
    rw [handle_text_eq_dispatch cfg now s [true] m u hallow hfind, htext]
    unfold dispatch addExpenseCmd set_state nextFault
    rw [if_pos rfl]
    exact ⟨rfl, rfl, rfl⟩
  · intro h1 h2 h3
    rw [handle_text_eq_dispatch cfg now s [true] m u hallow hfind]
    unfold dispatch
    rw [if_neg h1, if_neg h2, if_neg h3]
    exact ⟨rfl, rfl, rfl⟩
  · intro htext
    rw [handle_text_eq_dispatch cfg now s [true, true] m u hallow hfind, htext]
    unfold dispatch seeExpensesCmd nextFault
    rw [if_neg (by decide : ¬ ("See expenses" = "Add expense")), if_pos rfl]
    exact ⟨rfl, rfl, rfl⟩
  · intro htext
    rw [handle_text_eq_dispatch cfg now s [true] m u hallow hfind, htext]
    unfold dispatch seeLastMonthCmd nextFault
    rw [if_neg (by decide : ¬ ("See last month" = "Add expense")),
      if_neg (by decide : ¬ ("See last month" = "See expenses")), if_pos rfl]
    exact ⟨rfl, rfl, rfl⟩
  · intro h1 h2 h3 st a hstate hpend hp h0
    rw [handle_text_eq_dispatch cfg now s [false, true] m u hallow hfind]
    unfold dispatch
    rw [if_neg h1, if_neg h2, if_neg h3, get_state_cons_false]
    dsimp only
    rw [hstate]
    unfold stateStep
    dsimp only
    rw [hpend, if_pos rfl, hp]
    dsimp only
    rw [if_neg h0]
    exact ⟨rfl, rfl, rfl⟩
  · intro h1 h2 h3 st a hstate hpend hamt htitle
    rw [handle_text_eq_dispatch cfg now s [false, true] m u hallow hfind]
    unfold dispatch
    rw [if_neg h1, if_neg h2, if_neg h3, get_state_cons_false]
    dsimp only
    rw [hstate]
    unfold stateStep
    dsimp only
    rw [hpend,
      if_neg (by decide : ¬ ((some "await_title" : Option String) = some "await_amount")),
      if_pos rfl, hamt, if_neg htitle]
    exact ⟨rfl, rfl, rfl⟩

/-- Witness for C1 at three sites: the `Add expense` upsert failing,
the staging upsert failing on input `"5"`, and the expense insert
failing on title `"Coffee"`. -/
theorem storeError_no_partial_application_witness :
    ((is_allowed ⟨[1]⟩ (Msg.mk 1 5 "Add expense").tgUserId = true ∧
      (Store.mk [⟨7, 1, 5⟩] [⟨7, some "await_title", some 10, ⟨2025, 10, 2⟩⟩] [] []).users.find?
          (fun x => x.tgUserId == (Msg.mk 1 5 "Add expense").tgUserId) = some ⟨7, 1, 5⟩ ∧
      pyStrip (Msg.mk 1 5 "Add expense").text = "Add expense") ∧
    (handle_text ⟨[1]⟩ ⟨2025, 10, 3⟩
        (Store.mk [⟨7, 1, 5⟩] [⟨7, some "await_title", some 10, ⟨2025, 10, 2⟩⟩] [] [])
        [false, false, true] (Msg.mk 1 5 "Add expense")).1.botState =
      [⟨7, some "await_title", some 10, ⟨2025, 10, 2⟩⟩] ∧
    (handle_text ⟨[1]⟩ ⟨2025, 10, 3⟩
        (Store.mk [⟨7, 1, 5⟩] [⟨7, some "await_title", some 10, ⟨2025, 10, 2⟩⟩] [] [])
        [false, false, true] (Msg.mk 1 5 "Add expense")).1.expenses = [] ∧
    (handle_text ⟨[1]⟩ ⟨2025, 10, 3⟩
        (Store.mk [⟨7, 1, 5⟩] [⟨7, some "await_title", some 10, ⟨2025, 10, 2⟩⟩] [] [])
        [false, false, true] (Msg.mk 1 5 "Add expense")).2 = [OutMsg.promptAmount]) ∧
    ((pyStrip (Msg.mk 1 5 "5").text ≠ "Add expense" ∧
      (Store.mk [⟨7, 1, 5⟩] [⟨7, some "await_amount", none, ⟨2025, 10, 2⟩⟩] [] []).botState.find?
          (fun r => r.userId == (7 : ℕ)) =
        some ⟨7, some "await_amount", none, ⟨2025, 10, 2⟩⟩ ∧
      parse_amount (pyStrip (Msg.mk 1 5 "5").text) = some 5 ∧
      (5 : ℚ) ≠ 0) ∧
    (handle_text ⟨[1]⟩ ⟨2025, 10, 3⟩
        (Store.mk [⟨7, 1, 5⟩] [⟨7, some "await_amount", none, ⟨2025, 10, 2⟩⟩] [] [])
        [false, false, false, true] (Msg.mk 1 5 "5")).1.botState =
      [⟨7, some "await_amount", none, ⟨2025, 10, 2⟩⟩] ∧
    (handle_text ⟨[1]⟩ ⟨2025, 10, 3⟩
        (Store.mk [⟨7, 1, 5⟩] [⟨7, some "await_amount", none, ⟨2025, 10, 2⟩⟩] [] [])
        [false, false, false, true] (Msg.mk 1 5 "5")).1.expenses = [] ∧
    (handle_text ⟨[1]⟩ ⟨2025, 10, 3⟩
        (Store.mk [⟨7, 1, 5⟩] [⟨7, some "await_amount", none, ⟨2025, 10, 2⟩⟩] [] [])
        [false, false, false, true] (Msg.mk 1 5 "5")).2 = [OutMsg.amountOk 5]) ∧
    ((pyStrip (Msg.mk 1 5 "Coffee").text ≠ "Add expense" ∧
      (Store.mk [⟨7, 1, 5⟩] [⟨7, some "await_title", some 10, ⟨2025, 10, 2⟩⟩] [] []).botState.find?
          (fun r => r.userId == (7 : ℕ)) =
        some ⟨7, some "await_title", some 10, ⟨2025, 10, 2⟩⟩ ∧
      normalizeTitle (pyStrip (Msg.mk 1 5 "Coffee").text) ≠ "") ∧
    (handle_text ⟨[1]⟩ ⟨2025, 10, 3⟩
        (Store.mk [⟨7, 1, 5⟩] [⟨7, some "await_title", some 10, ⟨2025, 10, 2⟩⟩] [] [])
        [false, false, false, true] (Msg.mk 1 5 "Coffee")).1.botState =
      [⟨7, some "await_title", some 10, ⟨2025, 10, 2⟩⟩] ∧
    (handle_text ⟨[1]⟩ ⟨2025, 10, 3⟩
        (Store.mk [⟨7, 1, 5⟩] [⟨7, some "await_title", some 10, ⟨2025, 10, 2⟩⟩] [] [])
        [false, false, false, true] (Msg.mk 1 5 "Coffee")).1.expenses = [] ∧
    (handle_text ⟨[1]⟩ ⟨2025, 10, 3⟩
        (Store.mk [⟨7, 1, 5⟩] [⟨7, some "await_title", some 10, ⟨2025, 10, 2⟩⟩] [] [])
        [false, false, false, true] (Msg.mk 1 5 "Coffee")).2 = [OutMsg.saveFailed]) :=
  ⟨⟨⟨by decide, by decide, by decide⟩,
    (storeError_no_partial_application ⟨[1]⟩ ⟨2025, 10, 3⟩
        (Store.mk [⟨7, 1, 5⟩] [⟨7, some "await_title", some 10, ⟨2025, 10, 2⟩⟩] [] [])
        (Msg.mk 1 5 "Add expense") ⟨7, 1, 5⟩ (by decide) (by decide)).1 (by decide)⟩,
    ⟨⟨by decide, by decide, parse_amount_5, by decide⟩,
    (storeError_no_partial_application ⟨[1]⟩ ⟨2025, 10, 3⟩
        (Store.mk [⟨7, 1, 5⟩] [⟨7, some "await_amount", none, ⟨2025, 10, 2⟩⟩] [] [])
        (Msg.mk 1 5 "5") ⟨7, 1, 5⟩ (by decide) (by decide)).2.2.2.2.1
      (by decide) (by decide) (by decide)
      ⟨7, some "await_amount", none, ⟨2025, 10, 2⟩⟩ 5
      (by decide) (by decide) parse_amount_5 (by decide)⟩,
    ⟨⟨by decide, by decide, by decide⟩,
    (storeError_no_partial_application ⟨[1]⟩ ⟨2025, 10, 3⟩
        (Store.mk [⟨7, 1, 5⟩] [⟨7, some "await_title", some 10, ⟨2025, 10, 2⟩⟩] [] [])
        (Msg.mk 1 5 "Coffee") ⟨7, 1, 5⟩ (by decide) (by decide)).2.2.2.2.2
      (by decide) (by decide) (by decide)
      ⟨7, some "await_title", some 10, ⟨2025, 10, 2⟩⟩ 10
      (by decide) (by decide) (by decide) (by decide)⟩⟩

theorem ensure_user_botState (cfg : Config) (s : Store) (sched : List Bool)
    (tg chat : ℕ) :
    ((ensure_user cfg s sched tg chat).2.1).botState = s.botState := by
  unfold ensure_user
  by_cases hA : is_allowed cfg tg = false
  · rw [if_pos hA]
  · rw [if_neg hA]
    cases sched with
    | nil =>
        cases hf : s.users.find? (fun x => x.tgUserId == tg) with
        | some u => rfl
        | none => rfl
    | cons b t =>
        cases b with
        | true => rfl
        | false =>
            cases hf : s.users.find? (fun x => x.tgUserId == tg) with
            | some u =>
                cases t with
                | nil => rfl
                | cons b2 t2 => cases b2 <;> rfl
            | none =>
                cases t with
                | nil => rfl
                | cons b2 t2 => cases b2 <;> rfl

theorem set_state_botState_mem {s : Store} {sched : List Bool} {uid : ℕ}
    {action : Option String} {temp : Option ℚ} {now : Time} {r : StateRow}
    (h : r ∈ (set_state s sched uid action temp now).1.botState) :
    r ∈ s.botState ∨ r = ⟨uid, action, temp, now⟩ := by
  unfold set_state at h
  cases sched with
  | nil => exact mem_upsertState h
  | cons b t =>
      cases b with
      | true => exact Or.inl h
      | false => exact mem_upsertState h

theorem clear_state_botState_mem {s : Store} {sched : List Bool} {uid : ℕ}
    {r : StateRow}
    (h : r ∈ (clear_state s sched uid).1.botState) : r ∈ s.botState := by
  unfold clear_state at h
  cases sched with
  | nil => exact List.mem_of_mem_filter h
  | cons b t =>
      cases b with
      | true => exact h
      | false => exact List.mem_of_mem_filter h

theorem stateStep_botState_mem {now : Time} {s : Store} {sched : List Bool}
    {uid : ℕ} {text : String} {stq : Option StateRow} {r : StateRow}
    (h : r ∈ (stateStep now s sched uid text stq).1.botState) :
    r ∈ s.botState ∨
    ∃ a : ℚ, r = ⟨uid, some "await_title", some a, now⟩ ∧
      parse_amount text = some a ∧ a ≠ 0 := by
  unfold stateStep at h
  cases stq with
  | none => exact Or.inl h
  | some st =>
      dsimp only at h
      by_cases h1 : st.pending = some "await_amount"
      · rw [if_pos h1] at h
        cases hp : parse_amount text with
        | none => rw [hp] at h; exact Or.inl h
        | some a =>
            rw [hp] at h
            dsimp only at h
            by_cases h0 : a = 0
            · rw [if_pos h0] at h; exact Or.inl h
            · rw [if_neg h0] at h
              rcases set_state_botState_mem h with hmem | hrow
              · exact Or.inl hmem
              · exact Or.inr ⟨a, hrow, rfl, h0⟩
      · rw [if_neg h1] at h
        by_cases h2 : st.pending = some "await_title"
        · rw [if_pos h2] at h
          by_cases ht : normalizeTitle text = ""
          · rw [if_pos ht] at h; exact Or.inl h
          · rw [if_neg ht] at h
            cases ha : st.tempAmount with
            | none => rw [ha] at h; exact Or.inl h
            | some a =>
                rw [ha] at h
                dsimp only at h
                cases sched with
                | nil =>
                    have h2 : r ∈ (clear_state
                        (Store.mk s.users s.botState
                          (s.expenses ++ [⟨uid, a, normalizeTitle text, now⟩])
                          s.monthly) (nextFault []).2 uid).1.botState := h
                    have h3 : r ∈ (Store.mk s.users s.botState
                        (s.expenses ++ [⟨uid, a, normalizeTitle text, now⟩])
                        s.monthly).botState :=
                      @clear_state_botState_mem
                        (Store.mk s.users s.botState
                          (s.expenses ++ [⟨uid, a, normalizeTitle text, now⟩])
                          s.monthly) (nextFault []).2 uid r h2
                    exact Or.inl h3
                | cons b t =>
                    cases b with
                    | true => exact Or.inl h
                    | false =>
                        have h2 : r ∈ (clear_state
                            (Store.mk s.users s.botState
                              (s.expenses ++ [⟨uid, a, normalizeTitle text, now⟩])
                              s.monthly) t uid).1.botState := h
                        have h3 : r ∈ (Store.mk s.users s.botState
                            (s.expenses ++ [⟨uid, a, normalizeTitle text, now⟩])
                            s.monthly).botState :=
                          @clear_state_botState_mem
                            (Store.mk s.users s.botState
                              (s.expenses ++ [⟨uid, a, normalizeTitle text, now⟩])
                              s.monthly) t uid r h2
                        exact Or.inl h3
        · rw [if_neg h2] at h; exact Or.inl h

theorem dispatch_botState_mem {now : Time} {s : Store} {sched : List Bool}
    {uid : ℕ} {text : String} {r : StateRow}
    (h : r ∈ (dispatch now s sched uid text).1.botState) :
    r ∈ s.botState ∨ r = ⟨uid, some "await_amount", none, now⟩ ∨
    ∃ a : ℚ, r = ⟨uid, some "await_title", some a, now⟩ ∧
      parse_amount text = some a ∧ a ≠ 0 := by
  unfold dispatch at h
  by_cases h1 : text = "Add expense"
  · rw [if_pos h1] at h
    unfold addExpenseCmd at h
    dsimp only at h
    rcases set_state_botState_mem h with hmem | hrow
    · exact Or.inl hmem
    · exact Or.inr (Or.inl hrow)
  · rw [if_neg h1] at h
    by_cases h2 : text = "See expenses"
    · rw [if_pos h2] at h
      exact Or.inl h
    · rw [if_neg h2] at h
      by_cases h3 : text = "See last month"
      · rw [if_pos h3] at h
        exact Or.inl h
      · rw [if_neg h3] at h
        rcases stateStep_botState_mem h with hmem | ⟨a, hrow, hp, h0⟩
        · exact Or.inl hmem
        · exact Or.inr (Or.inr ⟨a, hrow, hp, h0⟩)

theorem handle_text_botState_mem {cfg : Config} {now : Time} {s : Store}
    {sched : List Bool} {m : Msg} {r : StateRow}
    (h : r ∈ (handle_text cfg now s sched m).1.botState) :
    r ∈ s.botState ∨ (∃ uid, r = ⟨uid, some "await_amount", none, now⟩) ∨
    ∃ uid a, r = ⟨uid, some "await_title", some a, now⟩ ∧
      parse_amount (pyStrip m.text) = some a ∧ a ≠ 0 := by
  unfold handle_text at h
  by_cases hA : is_allowed cfg m.tgUserId = false
  · rw [if_pos hA] at h
    exact Or.inl h
  · rw [if_neg hA] at h
    rcases he : ensure_user cfg s sched m.tgUserId m.chatId with ⟨ouid, s1, sched1⟩
    rw [he] at h
    have hbs : s1.botState = s.botState := by
      have h2 := ensure_user_botState cfg s sched m.tgUserId m.chatId
      rw [he] at h2
      exact h2
    cases ouid with
    | none =>
        dsimp only at h
        rw [hbs] at h
        exact Or.inl h
    | some uid =>
        dsimp only at h
        rw [← hbs]  -- hmm goal has s.botState
        rcases dispatch_botState_mem h with h' | h' | h'
        · exact Or.inl h'
        · exact Or.inr (Or.inl ⟨uid, h'⟩)
        · exact Or.inr (Or.inr ⟨uid, h'⟩)

/-- C10: the engine stages an amount only when the parser's result is
truthy: `parse_amount` itself can return `0` for a small positive input
such as `"0.004"`, but Python truthiness treats that `0.0` as invalid,
so every pending-action row the handler ever writes with action kind
`await_title` carries a strictly positive staged amount. -/
theorem staged_amount_positive :
    parse_amount "0.004" = some 0 ∧
    ∀ (cfg : Config) (now : Time) (s : Store) (sched : List Bool) (m : Msg)
      (r : StateRow),
      r ∈ (handle_text cfg now s sched m).1.botState →
      r ∉ s.botState →
      r.pending = some "await_title" →
      ∃ a : ℚ, r.tempAmount = some a ∧ 0 < a := by
  constructor
  · have h : parseFloatChars ("0.004".toList.map commaToDot) =
        some ⟨false, 0, 4, 3⟩ := by decide
    rw [parse_amount, h]
    norm_num [DecLit.toRat, round2, rhe]
  · intro cfg now s sched m r hmem hnew hpend
    rcases handle_text_botState_mem hmem with h | ⟨uid, h⟩ | ⟨uid, a, hrow, hp, h0⟩
    · exact absurd h hnew
    · rw [h] at hpend
      have hbad : (some "await_amount" : Option String) = some "await_title" := hpend
      exact absurd hbad (by decide)
    · refine ⟨a, ?_, ?_⟩
      · rw [hrow]
      · rcases lt_or_eq_of_le (parse_amount_nonneg hp) with hlt | heq
        · exact hlt
        · exact absurd heq.symm h0

/-- Concrete staging run: in state `await_amount` the text `"5"` stages
amount `5` and moves the row to `await_title`. -/
theorem stage_example :
    handle_text ⟨[1]⟩ ⟨2025, 10, 3⟩
        (Store.mk [⟨7, 1, 5⟩] [⟨7, some "await_amount", none, ⟨2025, 10, 2⟩⟩] [] []) []
        (Msg.mk 1 5 "5") =
      (Store.mk [⟨7, 1, 5⟩] [⟨7, some "await_title", some 5, ⟨2025, 10, 3⟩⟩] [] [],
        [OutMsg.amountOk 5]) := by
  have hp : parse_amount "5" = some 5 := by
    have h : parseFloatChars ("5".toList.map commaToDot) = some ⟨false, 5, 0, 0⟩ := by
      decide
    rw [parse_amount, h]
    norm_num [DecLit.toRat, round2, rhe]
  rw [handle_text_eq_dispatch_nil ⟨[1]⟩ ⟨2025, 10, 3⟩
      (Store.mk [⟨7, 1, 5⟩] [⟨7, some "await_amount", none, ⟨2025, 10, 2⟩⟩] [] [])
      (Msg.mk 1 5 "5") ⟨7, 1, 5⟩ (by decide) (by decide)]
  rw [show pyStrip (Msg.mk 1 5 "5").text = "5" from rfl]
  unfold dispatch
  rw [if_neg (by decide : ¬ ("5" = "Add expense")),
    if_neg (by decide : ¬ ("5" = "See expenses")),
    if_neg (by decide : ¬ ("5" = "See last month")), get_state_nil]
  dsimp only
  rw [show (List.find? (fun r => r.userId == (7 : ℕ))
      [(⟨7, some "await_amount", none, ⟨2025, 10, 2⟩⟩ : StateRow)]) =
      some ⟨7, some "await_amount", none, ⟨2025, 10, 2⟩⟩ from rfl]
  unfold stateStep
  dsimp only
  rw [if_pos rfl, hp]
  dsimp only
  rw [if_neg (by norm_num : ¬ ((5 : ℚ) = 0))]
  unfold set_state nextFault upsertState
  dsimp only
  norm_num
  decide

/-- Witness for C10: the staged row written for input `"5"` carries a
strictly positive amount. -/
theorem staged_amount_positive_witness :
    ((⟨7, some "await_title", some 5, ⟨2025, 10, 3⟩⟩ : StateRow) ∈
        (handle_text ⟨[1]⟩ ⟨2025, 10, 3⟩
          (Store.mk [⟨7, 1, 5⟩] [⟨7, some "await_amount", none, ⟨2025, 10, 2⟩⟩] [] [])
          [] (Msg.mk 1 5 "5")).1.botState ∧
      (⟨7, some "await_title", some 5, ⟨2025, 10, 3⟩⟩ : StateRow) ∉
        (Store.mk [⟨7, 1, 5⟩] [⟨7, some "await_amount", none, ⟨2025, 10, 2⟩⟩] [] []).botState ∧
      (⟨7, some "await_title", some 5, ⟨2025, 10, 3⟩⟩ : StateRow).pending =
        some "await_title") ∧
    ∃ a : ℚ,
      (⟨7, some "await_title", some 5, ⟨2025, 10, 3⟩⟩ : StateRow).tempAmount = some a ∧
      0 < a := by
  have hmem : (⟨7, some "await_title", some 5, ⟨2025, 10, 3⟩⟩ : StateRow) ∈
      (handle_text ⟨[1]⟩ ⟨2025, 10, 3⟩
        (Store.mk [⟨7, 1, 5⟩] [⟨7, some "await_amount", none, ⟨2025, 10, 2⟩⟩] [] [])
        [] (Msg.mk 1 5 "5")).1.botState := by
    rw [stage_example]
    exact List.mem_cons_self _ _
  have hnot : (⟨7, some "await_title", some 5, ⟨2025, 10, 3⟩⟩ : StateRow) ∉
      (Store.mk [⟨7, 1, 5⟩] [⟨7, some "await_amount", none, ⟨2025, 10, 2⟩⟩] [] []).botState := by
    decide
  exact ⟨⟨hmem, hnot, rfl⟩,
    staged_amount_positive.2 ⟨[1]⟩ ⟨2025, 10, 3⟩
      (Store.mk [⟨7, 1, 5⟩] [⟨7, some "await_amount", none, ⟨2025, 10, 2⟩⟩] [] [])
      [] (Msg.mk 1 5 "5") ⟨7, some "await_title", some 5, ⟨2025, 10, 3⟩⟩
      hmem hnot rfl⟩
